import Mathlib

/-!
Shallow embedding of the atomic-bundler bundle-submission pipeline.

Machine integers are modelled as `Nat` with explicit bounds where overflow
matters: alloy `U256` values are naturals below `2^256`, `u128` below `2^128`,
`u64` below `2^64`.  Checked arithmetic (`checked_add` / `checked_mul` /
`checked_div`) returns `Option Nat`; fallible Rust code returns `Option` or
`Except`.
-/

namespace AtomicBundler

/-- `2^256`, the modulus of alloy's `U256`. -/
def U256MOD : Nat := 2 ^ 256

/-- `U256::MAX`. -/
def U256MAX : Nat := U256MOD - 1

/-- `U256::checked_add`: `None` when the mathematical sum does not fit 256 bits. -/
def checkedAdd (a b : Nat) : Option Nat :=
  if a + b < U256MOD then some (a + b) else none

/-- `U256::checked_mul`: `None` when the mathematical product does not fit 256 bits. -/
def checkedMul (a b : Nat) : Option Nat :=
  if a * b < U256MOD then some (a * b) else none

/-- `U256::checked_div`: `None` exactly when the divisor is zero. -/
def checkedDiv (a b : Nat) : Option Nat :=
  if b = 0 then none else some (a / b)

/-- `U256::saturating_add`: clamps at `U256::MAX`. -/
def saturatingAdd (a b : Nat) : Nat :=
  min (a + b) U256MAX

/-- The literal `1e18 as u64` from `calculator.rs` (`1e18` is exactly
representable in `f64`, so the cast yields `10^18`). -/
def WEI_PER_ETH : Nat := 1000000000000000000

/-- `types::PaymentFormula` (`crates/types/src/payment.rs`). -/
inductive PaymentFormula where
  | Flat
  | Gas
  | Basefee
deriving DecidableEq, Repr

/-- `types::PaymentParams` (`crates/types/src/payment.rs`).

The Rust field `k1 : f64` only ever enters the calculator through the
expression `(params.k1 * 1e18) as u64`; we take that already-scaled 64-bit
value as the parameter `k1Scaled`, keeping the floating-point rounding outside
the model (none of the verified claims depends on it). -/
structure PaymentParams where
  gas_used : Nat
  base_fee_per_gas : Nat
  max_priority_fee_per_gas : Nat
  formula : PaymentFormula
  k1Scaled : Nat
  k2 : Nat
  max_amount : Nat
deriving DecidableEq, Repr

/-- `types::PaymentResult` (timestamp omitted: `calculated_at` is wall-clock
noise irrelevant to every claim). -/
structure PaymentResult where
  amount_wei : Nat
  formula : PaymentFormula
  gas_used : Nat
  base_fee_per_gas : Option Nat
  was_capped : Bool
deriving DecidableEq, Repr

/-- `PaymentCalculator::calculate_flat` (`crates/payment/src/calculator.rs`
lines 40-44).  NOTE: the source returns the hard-coded constant
`U256::from(200000000000000u64)`; the line `Ok(params.k2)` is commented out. -/
def calculate_flat (_params : PaymentParams) : Option Nat :=
  some 200000000000000

/-- `PaymentCalculator::calculate_gas_based` (`calculator.rs` lines 47-58). -/
def calculate_gas_based (params : PaymentParams) : Option Nat := do
  let gas_component ← (checkedMul params.gas_used params.k1Scaled).bind
    (fun v => checkedDiv v WEI_PER_ETH)
  let total ← checkedAdd gas_component params.k2
  pure total

/-- `PaymentCalculator::calculate_basefee_based` (`calculator.rs` lines 61-81). -/
def calculate_basefee_based (params : PaymentParams) : Option Nat := do
  let effective_gas_price ← checkedAdd params.base_fee_per_gas params.max_priority_fee_per_gas
  let gas_cost ← checkedMul params.gas_used effective_gas_price
  let gas_component ← (checkedMul gas_cost params.k1Scaled).bind
    (fun v => checkedDiv v WEI_PER_ETH)
  let total ← checkedAdd gas_component params.k2
  pure total

/-- The formula dispatch inside `PaymentCalculator::calculate_payment`
(`calculator.rs` lines 18-22). -/
def formulaAmount (params : PaymentParams) : Option Nat :=
  match params.formula with
  | .Flat => calculate_flat params
  | .Gas => calculate_gas_based params
  | .Basefee => calculate_basefee_based params

/-- `PaymentCalculator::calculate_payment` (`calculator.rs` lines 17-38):
formula dispatch, then cap by `max_amount`. -/
def calculate_payment (params : PaymentParams) : Option PaymentResult := do
  let amount_wei ← formulaAmount params
  let was_capped := amount_wei > params.max_amount
  let final_amount := if was_capped then params.max_amount else amount_wei
  pure { amount_wei := final_amount
         formula := params.formula
         gas_used := params.gas_used
         base_fee_per_gas := some params.base_fee_per_gas
         was_capped := was_capped }

/-! ## JSON values

A small JSON value type standing for `serde_json::Value`.  Numbers are
integers (every number relevant to the claims — ids, error codes, the
`activate` flag — is integral). -/

inductive Json where
  | null
  | bool (b : Bool)
  | num (n : Int)
  | str (s : String)
  | arr (xs : List Json)
  | obj (fields : List (String × Json))

/-- `Value::get(key)` on an object: first binding wins (serde_json maps have
unique keys). -/
def Json.get : Json → String → Option Json
  | .obj fields, k => (fields.find? (fun kv => kv.1 = k)).map (·.2)
  | _, _ => none

/-- `Value::as_str`. -/
def Json.asStr : Json → Option String
  | .str s => some s
  | _ => none

/-- `Value::as_bool`. -/
def Json.asBool : Json → Option Bool
  | .bool b => some b
  | _ => none

/-- `Value::as_i64`. -/
def Json.asI64 : Json → Option Int
  | .num n => if -(2 ^ 63) ≤ n ∧ n < 2 ^ 63 then some n else none
  | _ => none

/-- Serde deserialization of a `u64` field from a JSON number. -/
def Json.asU64 : Json → Option Nat
  | .num n => if 0 ≤ n ∧ n < 2 ^ 64 then some n.toNat else none
  | _ => none

/-! ## Relay response parsing (`crates/relay_client/src/client.rs`) -/

/-- `types::RelayError` detail struct (`crates/types/src/relay.rs` lines 81-89). -/
structure RelayErrorBody where
  code : Int
  message : String
  data : Option Json

/-- `types::RelayResult` (`relay.rs` lines 71-78): the `#[serde(untagged)]`
payload of a relay response. -/
inductive RelayResult where
  | Success (result : String)
  | Error (error : RelayErrorBody)

/-- `types::error::RelayError` variants reachable from response parsing. -/
inductive RelayErr where
  | ConnectionTimeout (relay : String)
  | HttpError (relay : String) (status : Nat)
  | InvalidResponse (relay : String) (message : String)
  | BundleRejected (relay : String) (reason : String)
deriving DecidableEq, Repr

/-- Deserialization of the `error` field into `types::RelayError`
(`i32` code, `String` message, optional `data`). -/
def parseRelayErrorBody (j : Json) : Option RelayErrorBody := do
  let code ← (← j.get "code").asI64
  if -(2 ^ 31) ≤ code ∧ code < 2 ^ 31 then
    let message ← (← j.get "message").asStr
    pure { code := code, message := message, data := j.get "data" }
  else none

/-- Strict deserialization `serde_json::from_str::<RelayBundleResponse>`
(`relay.rs` lines 59-68): requires `jsonrpc : String` and `id : u64`, then the
flattened `#[serde(untagged)]` `RelayResult` — the `Success` variant (a
`result` string field) is tried before the `Error` variant. -/
def parseRelayBundleResponse (j : Json) : Option RelayResult := do
  let _jsonrpc ← (← j.get "jsonrpc").asStr
  let _idn ← (← j.get "id").asU64
  match j.get "result" with
  | some (.str s) => pure (RelayResult.Success s)
  | _ =>
    match j.get "error" with
    | some e => do
      let body ← parseRelayErrorBody e
      pure (RelayResult.Error body)
    | none => none

/-- `parse_bundle_submit_response` (`client.rs` lines 146-190), modelled on the
already-parsed JSON value of the 2xx body (both `serde_json::from_str` calls in
the source parse the same `raw_text`; the invalid-JSON early return concerns
non-JSON bodies, outside every claim here).  The `format!` message of the
fallback `InvalidResponse` is reproduced with the raw body elided. -/
def parse_bundle_submit_response (relay_name : String) (body : Json) :
    Except RelayErr String :=
  -- 1) strict schema
  match parseRelayBundleResponse body with
  | some (.Success result) => .ok result
  | some (.Error error) =>
      .error (RelayErr.BundleRejected relay_name error.message)
  | none =>
    -- 2) loose parsing
    match body.get "result" with
    | some (.str s) => .ok s
    | _ =>
      match (body.get "result").bind (fun r => r.get "bundleHash") with
      | some (.str s) => .ok s
      | _ =>
        let pair :=
          match body.get "error" with
          | some err =>
              (((err.get "code").bind Json.asI64).getD 0,
               (((err.get "message").bind Json.asStr).getD "unknown error"))
          | none =>
              (((body.get "code").bind Json.asI64).getD 0,
               (((body.get "message").bind Json.asStr).getD "invalid response"))
        .error (RelayErr.InvalidResponse relay_name
          ("unexpected response (code " ++ toString pair.1 ++ "): " ++ pair.2))

/-! ## Relay bundle request serialization (`crates/types/src/relay.rs`) -/

/-- Lower-case hexadecimal rendering of `n` with no leading zeros — Rust's
`format!("{:x}", n)` (`0` renders as `"0"`). -/
def toHexLower (n : Nat) : String :=
  String.mk ((Nat.toDigits 16 n).map (fun c => c.toLower))

/-- `types::RelayBundleParams` (`relay.rs` lines 40-56).  `block_number` is a
plain `String` field — not an `Option`, and without `skip_serializing_if`. -/
structure RelayBundleParams where
  txs : List String
  block_number : String
  min_timestamp : Option Nat
  max_timestamp : Option Nat
  reverting_tx_hashes : Option (List String)
deriving DecidableEq, Repr, Inhabited

/-- `types::RelayBundleRequest` (`relay.rs` lines 27-37). -/
structure RelayBundleRequest where
  jsonrpc : String
  id : Nat
  method : String
  params : List RelayBundleParams
deriving DecidableEq, Repr

/-- `RelayBundleRequest::new` (`relay.rs` lines 184-200): always sets
`block_number = format!("0x{:x}", block_number)`. -/
def RelayBundleRequest.new (id : Nat) (txs : List String) (block_number : Nat) :
    RelayBundleRequest :=
  { jsonrpc := "2.0"
    id := id
    method := "eth_sendBundle"
    params := [{ txs := txs
                 block_number := "0x" ++ toHexLower block_number
                 min_timestamp := none
                 max_timestamp := none
                 reverting_tx_hashes := none }] }

/-- Serde serialization of `RelayBundleParams` as the ordered key/value list of
the emitted JSON object: `txs` and `blockNumber` are unconditional, the three
optional fields carry `skip_serializing_if = "Option::is_none"`. -/
def serializeRelayBundleParams (p : RelayBundleParams) : List (String × Json) :=
  [("txs", Json.arr (p.txs.map Json.str)),
   ("blockNumber", Json.str p.block_number)]
  ++ (match p.min_timestamp with
      | some t => [("minTimestamp", Json.num t)]
      | none => [])
  ++ (match p.max_timestamp with
      | some t => [("maxTimestamp", Json.num t)]
      | none => [])
  ++ (match p.reverting_tx_hashes with
      | some hs => [("revertingTxHashes", Json.arr (hs.map Json.str))]
      | none => [])

/-- `RelayClient::submit_bundle` builds its wire request from a **mandatory**
`target_block : u64` (`client.rs` lines 35-41): this is the JSON object sent as
`params[0]` of the outgoing `eth_sendBundle` call. -/
def submitBundleWireParams (transactions : List String) (target_block : Nat) :
    List (String × Json) :=
  serializeRelayBundleParams
    ((RelayBundleRequest.new 0 transactions target_block).params.headI)

/-! ## RLP encoding and the payment-transaction forger
(`crates/payment/src/forger.rs`) -/

/-- Little-endian base-256 digits, by fuel (structural, so it evaluates inside
the kernel; the fuel `n` dominates the digit count). -/
def leBytesAux : Nat → Nat → List Nat
  | 0, _ => []
  | fuel + 1, n => if n = 0 then [] else n % 256 :: leBytesAux fuel (n / 256)

/-- Minimal big-endian byte representation of a natural (empty for `0`). -/
def beBytes (n : Nat) : List Nat :=
  (leBytesAux n n).reverse

/-- RLP encoding of an unsigned scalar (alloy encodes `U256`/`u64`/`u128`
scalars as their minimal big-endian byte strings). -/
def rlpScalar (n : Nat) : List Nat :=
  if n = 0 then [0x80]
  else if n < 0x80 then [n]
  else (0x80 + (beBytes n).length) :: beBytes n

/-- RLP encoding of a byte string. -/
def rlpBytes (bs : List Nat) : List Nat :=
  if bs.length = 1 ∧ bs.headI < 0x80 then bs
  else if bs.length ≤ 55 then (0x80 + bs.length) :: bs
  else (0xb7 + (beBytes bs.length).length) :: (beBytes bs.length ++ bs)

/-- RLP list framing of an already-encoded payload. -/
def rlpList (payload : List Nat) : List Nat :=
  if payload.length ≤ 55 then (0xc0 + payload.length) :: payload
  else (0xf7 + (beBytes payload.length).length) :: (beBytes payload.length ++ payload)

/-- A 20-byte Ethereum address as its fixed-width big-endian bytes. -/
def addressBytes (a : Nat) : List Nat :=
  List.replicate (20 - (beBytes a).length) 0 ++ beBytes a

/-- The `alloy::consensus::TxEip1559` value built in
`PaymentTransactionForger::forge_flat_transfer_hex` (`forger.rs` lines 52-63):
`to = TxKind::Call(to)`, `input = Bytes::new()`, `access_list = Default`
(both empty, so only the listed fields vary). -/
structure TxEip1559 where
  chain_id : Nat
  nonce : Nat
  max_fee_per_gas : Nat
  max_priority_fee_per_gas : Nat
  gas_limit : Nat
  toAddr : Nat
  value : Nat
deriving DecidableEq, Repr

/-- An ECDSA signature as alloy RLP-encodes it for a type-2 transaction:
`y_parity`, `r`, `s`.  Signature production (secp256k1) is kept abstract. -/
structure Signature where
  yParity : Bool
  r : Nat
  s : Nat
deriving DecidableEq, Repr

/-- RLP payload of the nine unsigned EIP-1559 fields, in wire order
(`chain_id, nonce, max_priority_fee_per_gas, max_fee_per_gas, gas_limit, to,
value, input, access_list`). -/
def txUnsignedFieldsRlp (tx : TxEip1559) : List Nat :=
  rlpScalar tx.chain_id ++ rlpScalar tx.nonce ++
  rlpScalar tx.max_priority_fee_per_gas ++ rlpScalar tx.max_fee_per_gas ++
  rlpScalar tx.gas_limit ++ rlpBytes (addressBytes tx.toAddr) ++
  rlpScalar tx.value ++ rlpBytes [] ++ rlpList []

/-- The bytes the forger feeds to `keccak256` (`forger.rs` line 74):
`alloy::rlp::encode(&tx)` encodes the **unsigned** transaction as a bare RLP
list — no EIP-2718 type prefix and no signature. -/
def forgeHashInputBytes (tx : TxEip1559) : List Nat :=
  rlpList (txUnsignedFieldsRlp tx)

/-- The bytes the forger returns (`forger.rs` lines 75-79):
`TxEnvelope::encoded_2718()`, i.e. `0x02 || rlp([fields… , y_parity, r, s])`.
A full node assigns the transaction the hash `keccak256` of exactly these
bytes. -/
def forgeEncoded2718Bytes (tx : TxEip1559) (sig : Signature) : List Nat :=
  0x02 :: rlpList (txUnsignedFieldsRlp tx ++
    rlpScalar (if sig.yParity then 1 else 0) ++ rlpScalar sig.r ++ rlpScalar sig.s)

/-- Lower-case hex of a byte list. -/
def bytesToHex (bs : List Nat) : String :=
  String.mk (bs.flatMap (fun b => [Nat.digitChar (b / 16), Nat.digitChar (b % 16)]))

/-- `forge_flat_transfer_hex` output string (`forger.rs` line 79). -/
def forge_flat_transfer_hex (tx : TxEip1559) (sig : Signature) : String :=
  "0x" ++ bytesToHex (forgeEncoded2718Bytes tx sig)

/-! ## Killswitch admin handler (`crates/middleware/src/api/handlers.rs`) -/

/-- `toggle_killswitch` (`handlers.rs` lines 418-440): the resulting killswitch
state.  `payload.get("activate").and_then(|v| v.as_bool()).unwrap_or(true)`;
`true` activates, `false` deactivates. -/
def toggle_killswitch (payload : Json) : Bool :=
  ((payload.get "activate").bind Json.asBool).getD true

/-! ## Operator configuration (`crates/config/src/schema.rs`,
`crates/types/src/payment.rs`) -/

/-- `config::BuilderConfig` (`schema.rs` lines 79-98): the fields the bundle
handler reads. -/
structure BuilderConfig where
  name : String
  relay_url : String
  payment_address : String
  enabled : Bool
  timeout_seconds : Nat
  max_retries : Nat
  health_check_interval_seconds : Nat
deriving DecidableEq, Repr

/-- `types::PaymentConfig` (`payment.rs` lines 33-46); `k1 : f64` is carried as
its `(k1 * 1e18) as u64` scaling, as in `PaymentParams`. -/
structure PaymentConfig where
  formula : PaymentFormula
  k1Scaled : Nat
  k2 : Nat
  max_amount_wei : Nat
  per_bundle_cap_wei : Nat
  daily_cap_wei : Nat
deriving DecidableEq, Repr

/-- The slice of `config::Config` the bundle handler reads. -/
structure Config where
  chain_id : Option Nat
  payment : PaymentConfig
  builders : List BuilderConfig
deriving DecidableEq, Repr

/-- Hex digit value. -/
def hexDigit? (c : Char) : Option Nat :=
  if '0' ≤ c ∧ c ≤ '9' then some (c.toNat - 48)
  else if 'a' ≤ c ∧ c ≤ 'f' then some (c.toNat - 87)
  else if 'A' ≤ c ∧ c ≤ 'F' then some (c.toNat - 55)
  else none

/-- Fold a hex digit sequence into a value; `none` on any non-hex character. -/
def parseHexChars : List Char → Option Nat
  | [] => some 0
  | c :: rest => do
    let d ← hexDigit? c
    let r ← parseHexChars rest
    pure (d * 16 ^ rest.length + r)

/-- `alloy::primitives::Address::from_str` (used in `handlers.rs` lines 198 and
241): accepts an optional `0x` prefix followed by exactly 40 hex digits. -/
def parseAddress (s : String) : Option Nat :=
  let cs := s.data
  let cs := if cs.take 2 = ['0', 'x'] then cs.drop 2 else cs
  if cs.length = 40 then parseHexChars cs else none

/-- Little-endian base-10 digits, by fuel (structural, so it evaluates inside
the kernel; the fuel `n` dominates the digit count). -/
def decDigitsAux : Nat → Nat → List Nat
  | 0, _ => []
  | fuel + 1, n => if n = 0 then [] else n % 10 :: decDigitsAux fuel (n / 10)

/-- Little-endian base-10 digits of `n`. -/
def decDigits (n : Nat) : List Nat :=
  decDigitsAux n n

/-- Value of a little-endian base-10 digit list. -/
def ofDecDigits : List Nat → Nat
  | [] => 0
  | d :: rest => d + 10 * ofDecDigits rest

/-- `U256::from_str(&u256_value.to_string())` (`handlers.rs` lines 110-111):
the config `U256` is printed in base 10 and re-parsed, an identity round-trip
modelled through the base-10 digit list. -/
def u256DecimalRoundTrip (n : Nat) : Option Nat :=
  some (ofDecDigits (decDigits n))

/-- The `PaymentParams` the bundle handler passes to the calculator
(`handlers.rs` lines 103-112).  The formula is the **hard-coded literal**
`PaymentFormula::Flat`, not `state.config.payment.formula`; `tip` is 0;
`max_amount` falls back to 0.5 ETH if the decimal round-trip fails. -/
def paymentParamsOf (pc : PaymentConfig) (estimated_gas base_fee : Nat) :
    PaymentParams :=
  { gas_used := estimated_gas
    base_fee_per_gas := base_fee
    max_priority_fee_per_gas := 0
    formula := PaymentFormula.Flat
    k1Scaled := pc.k1Scaled
    k2 := pc.k2
    max_amount := (u256DecimalRoundTrip pc.max_amount_wei).getD 500000000000000000 }

/-! ## The bundle-submission handler (`crates/middleware/src/api/handlers.rs`,
`submit_bundle`, lines 22-307)

The handler is sequential between its await points; we model one execution as
a pure function of an environment that fixes every external observation (the
killswitch flag, the chain RPC answers, each relay's answer, the signature the
signer produces for each forged transaction, the random bundle id), and we
record the externally visible steps in an action trace. -/

/-- External observations of one `submit_bundle` execution. -/
structure HandlerEnv where
  /-- `state.is_killswitch_active()`. -/
  killswitch : Bool
  /-- `state.config` snapshot. -/
  config : Config
  /-- `std::env::var("PAYMENT_SIGNER_PRIVATE_KEY")`. -/
  signerKey : Option String
  /-- `PrivateKeySigner::from_str(&signer_key)`: the signer address on
  success, `none` on parse failure. -/
  signerAddr : Option Nat
  /-- whether `ETH_RPC_URL` parses as a URL. -/
  rpcUrlValid : Bool
  /-- `provider.get_block_by_number(Latest)`: RPC error, no block, or a header
  whose `base_fee_per_gas : Option<u64>` is the inner option. -/
  latestBlock : Except Unit (Option (Option Nat))
  /-- `simulator::estimate_gas_from_raw` on `tx1`. -/
  gasEstimate : Except Unit Nat
  /-- `provider.get_transaction_count(signer_addr)` (a `U256`). -/
  nonce : Except Unit Nat
  /-- `provider.get_balance(signer_addr)`. -/
  balance : Except Unit Nat
  /-- outcome of `RelayClient::submit_bundle` for the i-th enabled builder. -/
  relayOutcome : Nat → Except RelayErr String
  /-- ECDSA signature produced when forging for the i-th enabled builder. -/
  sig : Nat → Signature
  /-- `Uuid::new_v4()`. -/
  bundleId : String

/-- `types::BundleRequest` (`crates/types/src/bundle.rs` lines 61-69); the
`payment` sub-object is never read by the handler. -/
structure BundleRequestIn where
  tx1 : String
  target_block : Option Nat
deriving DecidableEq, Repr

/-- Externally visible steps of a handler execution.  `policyCheck` and
`commitDailySpending` are the observations a call into
`payment::PaymentPolicyEnforcer` (`crates/payment/src/policies.rs`) would
produce. -/
inductive Action where
  | policyCheck (amount : Nat)
  | commitDailySpending (amount : Nat)
  | forge (builder : String) (value : Nat)
  | dispatch (builder : String)
deriving DecidableEq, Repr

instance {ε α : Type} [DecidableEq ε] [DecidableEq α] : DecidableEq (Except ε α) :=
  fun x y =>
    match x, y with
    | .ok a, .ok b =>
        if h : a = b then .isTrue (by rw [h]) else .isFalse (fun he => by cases he; exact h rfl)
    | .ok _, .error _ => .isFalse (fun he => by cases he)
    | .error _, .ok _ => .isFalse (fun he => by cases he)
    | .error e, .error f =>
        if h : e = f then .isTrue (by rw [h]) else .isFalse (fun he => by cases he; exact h rfl)

/-- One entry of the `submissions` array: builder name plus either the relay
response or the error string. -/
structure Submission where
  builder : String
  outcome : Except RelayErr String
deriving DecidableEq, Repr

/-- The `"status"` string serialized for a submission (`handlers.rs` lines
272-276 and 285-289). -/
def Submission.status (s : Submission) : String :=
  match s.outcome with
  | .ok _ => "submitted"
  | .error _ => "failed"

/-- The handler's HTTP outcome, by constructor; error constructors carry the
body fields the claims mention. -/
inductive HandlerReply where
  | errKillswitch
  | errNoBuilders
  | errSignerKeyMissing
  | errInvalidRpcUrl
  | errLatestBlock
  | errPaymentCalc
  | errInvalidSignerKey
  | errNonce
  | errBalance
  | errInsufficientBalance (balanceWei requiredWei : Nat)
  | errInvalidBuilderAddress (builder : String)
  | errForge (builder : String)
  | ok (bundleId : String) (submissions : List Submission)
deriving DecidableEq, Repr

/-- The HTTP status code each reply is returned with. -/
def HandlerReply.statusCode : HandlerReply → Nat
  | .errKillswitch => 503
  | .errNoBuilders => 400
  | .errSignerKeyMissing => 400
  | .errInvalidRpcUrl => 500
  | .errLatestBlock => 500
  | .errPaymentCalc => 500
  | .errInvalidSignerKey => 500
  | .errNonce => 500
  | .errBalance => 500
  | .errInsufficientBalance _ _ => 400
  | .errInvalidBuilderAddress _ => 400
  | .errForge _ => 500
  | .ok _ _ => 200

/-- `U256::from(latest_block.header.base_fee_per_gas.unwrap_or(20_000_000_000u64))`
(`handlers.rs` lines 84-87); the header field has type `u64`, realized by the
reduction modulo `2^64`. -/
def handlerBaseFee (bf? : Option Nat) : Nat :=
  (bf?.getD 20000000000) % 2 ^ 64

/-- Gas estimation with fallback (`handlers.rs` lines 90-97): estimated gas
plus 21000 for `tx2`, or 21000 when estimation fails. -/
def handlerEstimatedGas : Except Unit Nat → Nat
  | .ok g => g + 21000
  | .error _ => 21000

/-- `(((base_fee * 3) / 2) + 0).try_into().unwrap_or(2_000_000_000u128)`
(`handlers.rs` lines 122-126). -/
def handlerMaxFee (base_fee : Nat) : Nat :=
  if base_fee * 3 / 2 + 0 < 2 ^ 128 then base_fee * 3 / 2 + 0 else 2000000000

/-- The payment amount the handler obtains from the calculator
(`handlers.rs` lines 114-120). -/
def paymentAmountOf (pc : PaymentConfig) (g b : Nat) : Nat :=
  ((calculate_payment (paymentParamsOf pc g b)).map (fun r => r.amount_wei)).getD 0

/-- `required_wei` (`handlers.rs` lines 155-158). -/
def handlerRequired (max_fee amount : Nat) : Nat :=
  saturatingAdd ((checkedMul 21000 max_fee).getD U256MAX) amount

/-- First loop of the handler (`handlers.rs` lines 196-233): per enabled
builder, parse its payment address (400 on failure) and forge the signed
payment transaction.  Returns the per-builder bundles `(name, [tx1, tx2])` and
the forge actions, or the offending builder name with the actions performed
before the abort. -/
def forgeBundles (tx1_hex : String) (value chain_id base_nonce max_fee : Nat)
    (sig : Nat → Signature) :
    List BuilderConfig → Nat →
    (List (String × List String) × List Action) ⊕ (String × List Action)
  | [], _ => .inl ([], [])
  | b :: rest, i =>
    match parseAddress b.payment_address with
    | none => .inr (b.name, [])
    | some addr =>
      let tx2_hex := forge_flat_transfer_hex
        { chain_id := chain_id
          nonce := base_nonce
          max_fee_per_gas := max_fee
          max_priority_fee_per_gas := 0
          gas_limit := 21000
          toAddr := addr
          value := value } (sig i)
      match forgeBundles tx1_hex value chain_id base_nonce max_fee sig rest (i + 1) with
      | .inl (bs, acts) =>
          .inl ((b.name, [tx1_hex, tx2_hex]) :: bs, Action.forge b.name value :: acts)
      | .inr (nm, acts) => .inr (nm, Action.forge b.name value :: acts)

/-- Second loop of the handler (`handlers.rs` lines 236-292): per bundle,
re-parse the builder's payment address (400 on failure), dispatch to the relay
and record the per-relay outcome. -/
def fanOut (relayOutcome : Nat → Except RelayErr String) :
    List (BuilderConfig × (String × List String)) → Nat →
    (List Submission × List Action) ⊕ (String × List Action)
  | [], _ => .inl ([], [])
  | (b, (nm, _txs)) :: rest, i =>
    match parseAddress b.payment_address with
    | none => .inr (b.name, [])
    | some _ =>
      let sub : Submission := { builder := nm, outcome := relayOutcome i }
      match fanOut relayOutcome rest (i + 1) with
      | .inl (subs, acts) => .inl (sub :: subs, Action.dispatch nm :: acts)
      | .inr (fnm, acts) => .inr (fnm, Action.dispatch nm :: acts)

/-- `submit_bundle` (`handlers.rs` lines 22-307) as a function from the
environment and request to the HTTP reply and the trace of externally visible
actions, following the source's step order. -/
def submit_bundle (env : HandlerEnv) (request : BundleRequestIn) :
    HandlerReply × List Action :=
  if env.killswitch then (HandlerReply.errKillswitch, [])
  else
    let enabled_builders := env.config.builders.filter (fun b => b.enabled)
    if enabled_builders.isEmpty then (HandlerReply.errNoBuilders, [])
    else
      let tx1_hex := request.tx1
      match env.signerKey with
      | none => (HandlerReply.errSignerKeyMissing, [])
      | some _signer_key =>
        let chain_id := env.config.chain_id.getD 1
        if ¬ env.rpcUrlValid then (HandlerReply.errInvalidRpcUrl, [])
        else
          match env.latestBlock with
          | .error _ => (HandlerReply.errLatestBlock, [])
          | .ok none => (HandlerReply.errLatestBlock, [])
          | .ok (some header_base_fee) =>
            let base_fee_per_gas := handlerBaseFee header_base_fee
            let estimated_gas_used := handlerEstimatedGas env.gasEstimate
            let payment_params :=
              paymentParamsOf env.config.payment estimated_gas_used base_fee_per_gas
            match calculate_payment payment_params with
            | none => (HandlerReply.errPaymentCalc, [])
            | some payment_result =>
              let flat_amount_wei := payment_result.amount_wei
              let max_fee_per_gas := handlerMaxFee base_fee_per_gas
              match env.signerAddr with
              | none => (HandlerReply.errInvalidSignerKey, [])
              | some _signer_addr =>
                match env.nonce with
                | .error _ => (HandlerReply.errNonce, [])
                | .ok nonce_u256 =>
                  let base_nonce := if nonce_u256 < 2 ^ 64 then nonce_u256 else 0
                  match env.balance with
                  | .error _ => (HandlerReply.errBalance, [])
                  | .ok signer_balance =>
                    let required_wei := handlerRequired max_fee_per_gas flat_amount_wei
                    if signer_balance < required_wei then
                      (HandlerReply.errInsufficientBalance signer_balance required_wei, [])
                    else
                      match forgeBundles tx1_hex flat_amount_wei chain_id base_nonce
                          max_fee_per_gas env.sig enabled_builders 0 with
                      | .inr (nm, acts) => (HandlerReply.errInvalidBuilderAddress nm, acts)
                      | .inl (bundles, forgeActs) =>
                        match fanOut env.relayOutcome
                            (enabled_builders.zip bundles) 0 with
                        | .inr (nm, acts) =>
                            (HandlerReply.errInvalidBuilderAddress nm, forgeActs ++ acts)
                        | .inl (subs, dispatchActs) =>
                            (HandlerReply.ok env.bundleId subs, forgeActs ++ dispatchActs)

/-- Whether a reply is the insufficient-balance rejection. -/
def HandlerReply.isInsufficientBalance : HandlerReply → Bool
  | .errInsufficientBalance _ _ => true
  | _ => false

/-! ## Concrete fixtures used by the closed theorems -/

/-- The parameters of the unit test `test_flat_payment_calculation`
(`calculator.rs` lines 124-132): `k1 = 1.0`, whose scaling is `10^18`. -/
def c1Params : PaymentParams :=
  { gas_used := 21000
    base_fee_per_gas := 20000000000
    max_priority_fee_per_gas := 1000000000
    formula := PaymentFormula.Flat
    k1Scaled := 1000000000000000000
    k2 := 100000000000000
    max_amount := 1000000000000000 }

/-- A payment configuration whose operator-chosen formula is `Gas`. -/
def c2GasConfig : PaymentConfig :=
  { formula := PaymentFormula.Gas
    k1Scaled := 1000000000000000000
    k2 := 0
    max_amount_wei := 1000000000000000000
    per_bundle_cap_wei := 1000000000000000000
    daily_cap_wei := 1000000000000000000 }

/-- Two enabled builders with well-formed payment addresses. -/
def c3Builders : List BuilderConfig :=
  [{ name := "bA"
     relay_url := "http://relay-a.example"
     payment_address := "0x1111111111111111111111111111111111111111"
     enabled := true
     timeout_seconds := 30
     max_retries := 3
     health_check_interval_seconds := 60 },
   { name := "bB"
     relay_url := "http://relay-b.example"
     payment_address := "0x2222222222222222222222222222222222222222"
     enabled := true
     timeout_seconds := 30
     max_retries := 3
     health_check_interval_seconds := 60 }]

/-- A fully admitted submission: killswitch off, two enabled relays, healthy
chain reads, ample balance, both relays answering `{"result":"0xabc"}`. -/
def happyEnv : HandlerEnv :=
  { killswitch := false
    config :=
      { chain_id := some 1
        payment :=
          { formula := PaymentFormula.Flat
            k1Scaled := 1000000000000000000
            k2 := 100000000000000
            max_amount_wei := 1000000000000000
            per_bundle_cap_wei := 2000000000000000
            daily_cap_wei := 500000000000000000 }
        builders := c3Builders }
    signerKey := some "4c0883a69102937d6231471b5dbb6204fe5129617082792ae468d01a3f362318"
    signerAddr := some 1
    rpcUrlValid := true
    latestBlock := Except.ok (some (some 20000000000))
    gasEstimate := Except.ok 21000
    nonce := Except.ok 7
    balance := Except.ok 1000000000000000000
    relayOutcome := fun _ => Except.ok "0xabc"
    sig := fun _ => { yParity := false, r := 1, s := 1 }
    bundleId := "bundle-1" }

/-- The request of the happy-path scenario. -/
def happyReq : BundleRequestIn :=
  { tx1 := "0x02f870", target_block := some 18500000 }

/-- Concrete forge inputs (the S1 scenario figures). -/
def c5Tx : TxEip1559 :=
  { chain_id := 1
    nonce := 7
    max_fee_per_gas := 30000000000
    max_priority_fee_per_gas := 0
    gas_limit := 21000
    toAddr := 0xDAFEA492D9c6733ae3d56b7Ed1ADB60692c98Bc5
    value := 200000000000000 }

/-- A concrete signature value. -/
def c5Sig : Signature := { yParity := false, r := 1, s := 1 }

/-- A 2xx relay body that is a JSON object carrying an `error` object with
`code` and `message`, but no `jsonrpc`/`id` envelope fields. -/
def c7BareErrorBody : Json :=
  Json.obj [("error", Json.obj [("code", Json.num (-32000)), ("message", Json.str "nope")])]

/-- `{happyEnv with balance := 100}`: the signer owns 100 wei only. -/
def c8Env : HandlerEnv := { happyEnv with balance := Except.ok 100 }

/-! ## Helper lemmas -/

theorem ofDecDigits_decDigitsAux (fuel : Nat) :
    ∀ n : Nat, n ≤ fuel → ofDecDigits (decDigitsAux fuel n) = n := by
  induction fuel with
  | zero =>
    intro n h
    have : n = 0 := by omega
    subst this
    rfl
  | succ f ih =>
    intro n h
    by_cases h0 : n = 0
    · subst h0
      simp [decDigitsAux, ofDecDigits]
    · rw [decDigitsAux, if_neg h0, ofDecDigits]
      have hf : n / 10 ≤ f := by omega
      rw [ih _ hf]
      omega

theorem ofDecDigits_decDigits (n : Nat) : ofDecDigits (decDigits n) = n :=
  ofDecDigits_decDigitsAux n n le_rfl

theorem formulaAmount_max_irrel (p : PaymentParams) (m : Nat) :
    formulaAmount { p with max_amount := m } = formulaAmount p := by
  cases p
  rfl

theorem calculate_payment_spec (p : PaymentParams) (a : Nat)
    (h : formulaAmount p = some a) :
    calculate_payment p =
      some { amount_wei := if p.max_amount < a then p.max_amount else a
             formula := p.formula
             gas_used := p.gas_used
             base_fee_per_gas := some p.base_fee_per_gas
             was_capped := decide (p.max_amount < a) } := by
  simp [calculate_payment, h]

theorem formulaAmount_paymentParamsOf (pc : PaymentConfig) (g b : Nat) :
    formulaAmount (paymentParamsOf pc g b) = some 200000000000000 := rfl

theorem paymentParamsOf_max_amount (pc : PaymentConfig) (g b : Nat) :
    (paymentParamsOf pc g b).max_amount = pc.max_amount_wei := by
  simp [paymentParamsOf, u256DecimalRoundTrip, ofDecDigits_decDigits]

theorem paymentAmountOf_eq (pc : PaymentConfig) (g b : Nat) :
    paymentAmountOf pc g b =
      if pc.max_amount_wei < 200000000000000 then pc.max_amount_wei
      else 200000000000000 := by
  have hmax := paymentParamsOf_max_amount pc g b
  rw [paymentAmountOf]
  rw [calculate_payment_spec (paymentParamsOf pc g b) 200000000000000
    (formulaAmount_paymentParamsOf pc g b)]
  rw [hmax]
  simp

theorem calculate_payment_paymentParamsOf (pc : PaymentConfig) (g b : Nat) :
    calculate_payment (paymentParamsOf pc g b) =
      some { amount_wei := paymentAmountOf pc g b
             formula := PaymentFormula.Flat
             gas_used := g
             base_fee_per_gas := some b
             was_capped := decide (pc.max_amount_wei < 200000000000000) } := by
  rw [calculate_payment_spec (paymentParamsOf pc g b) 200000000000000
    (formulaAmount_paymentParamsOf pc g b)]
  rw [paymentParamsOf_max_amount]
  rw [paymentAmountOf_eq]
  simp [paymentParamsOf]

theorem paymentAmountOf_le (pc : PaymentConfig) (g b : Nat) :
    paymentAmountOf pc g b ≤ 200000000000000 := by
  rw [paymentAmountOf_eq]
  split <;> omega

theorem handlerMaxFee_lt (b : Nat) : handlerMaxFee b < 2 ^ 128 := by
  unfold handlerMaxFee
  split
  · omega
  · decide

theorem handlerRequired_exact (mf a : Nat) (h1 : mf < 2 ^ 128)
    (h2 : a ≤ 200000000000000) :
    handlerRequired mf a = 21000 * mf + a := by
  have hp128 : (2 : Nat) ^ 128 = 340282366920938463463374607431768211456 := by norm_num
  rw [hp128] at h1
  have hp256 : U256MOD = 2 ^ 256 := rfl
  have hp256' : (2 : Nat) ^ 256 =
      115792089237316195423570985008687907853269984665640564039457584007913129639936 := by
    norm_num
  have hmul : 21000 * mf < U256MOD := by
    rw [hp256, hp256']
    omega
  have hsum : 21000 * mf + a ≤ U256MAX := by
    have : U256MAX = U256MOD - 1 := rfl
    rw [this, hp256, hp256']
    omega
  unfold handlerRequired checkedMul saturatingAdd
  rw [if_pos hmul]
  simp only [Option.getD_some]
  omega

theorem submit_bundle_past_prelude (env : HandlerEnv) (req : BundleRequestIn)
    (k : String) (sa : Nat) (bf? : Option Nat) (n bal : Nat)
    (hk : env.killswitch = false)
    (hne : (env.config.builders.filter (fun b => b.enabled)).isEmpty = false)
    (hkey : env.signerKey = some k)
    (hurl : env.rpcUrlValid = true)
    (hlb : env.latestBlock = Except.ok (some bf?))
    (haddr : env.signerAddr = some sa)
    (hnonce : env.nonce = Except.ok n)
    (hbal : env.balance = Except.ok bal) :
    submit_bundle env req =
      if bal < 21000 * handlerMaxFee (handlerBaseFee bf?) +
          paymentAmountOf env.config.payment (handlerEstimatedGas env.gasEstimate)
            (handlerBaseFee bf?) then
        (HandlerReply.errInsufficientBalance bal
          (21000 * handlerMaxFee (handlerBaseFee bf?) +
            paymentAmountOf env.config.payment (handlerEstimatedGas env.gasEstimate)
              (handlerBaseFee bf?)), [])
      else
        match forgeBundles req.tx1
            (paymentAmountOf env.config.payment (handlerEstimatedGas env.gasEstimate)
              (handlerBaseFee bf?))
            (env.config.chain_id.getD 1) (if n < 2 ^ 64 then n else 0)
            (handlerMaxFee (handlerBaseFee bf?)) env.sig
            (env.config.builders.filter (fun b => b.enabled)) 0 with
        | .inr (nm, acts) => (HandlerReply.errInvalidBuilderAddress nm, acts)
        | .inl (bundles, forgeActs) =>
          match fanOut env.relayOutcome
              ((env.config.builders.filter (fun b => b.enabled)).zip bundles) 0 with
          | .inr (nm, acts) =>
              (HandlerReply.errInvalidBuilderAddress nm, forgeActs ++ acts)
          | .inl (subs, dispatchActs) =>
              (HandlerReply.ok env.bundleId subs, forgeActs ++ dispatchActs) := by
  have hreq := handlerRequired_exact (handlerMaxFee (handlerBaseFee bf?))
    (paymentAmountOf env.config.payment (handlerEstimatedGas env.gasEstimate)
      (handlerBaseFee bf?))
    (handlerMaxFee_lt _) (paymentAmountOf_le _ _ _)
  simp only [submit_bundle, hk, hne, hkey, hurl, hlb, haddr, hnonce, hbal,
    calculate_payment_paymentParamsOf, Bool.false_eq_true, if_false]
  rw [hreq]
  simp

theorem forgeBundles_all_parsed (tx1 : String) (v cid nn mfee : Nat)
    (sig : Nat → Signature) :
    ∀ (l : List BuilderConfig) (i : Nat),
      (∀ b ∈ l, (parseAddress b.payment_address).isSome = true) →
      ∃ bs acts,
        forgeBundles tx1 v cid nn mfee sig l i = Sum.inl (bs, acts) ∧
        bs.map Prod.fst = l.map (fun b => b.name) := by
  intro l
  induction l with
  | nil => exact fun i _ => ⟨[], [], rfl, rfl⟩
  | cons b rest ih =>
    intro i h
    have hb : (parseAddress b.payment_address).isSome = true :=
      h b (List.mem_cons_self b rest)
    obtain ⟨addr, haddr⟩ := Option.isSome_iff_exists.mp hb
    obtain ⟨bs, acts, hrec, hmap⟩ :=
      ih (i + 1) (fun x hx => h x (List.mem_cons_of_mem b hx))
    refine ⟨(b.name, [tx1, forge_flat_transfer_hex
        { chain_id := cid, nonce := nn, max_fee_per_gas := mfee,
          max_priority_fee_per_gas := 0, gas_limit := 21000,
          toAddr := addr, value := v } (sig i)]) :: bs,
      Action.forge b.name v :: acts, ?_, ?_⟩
    · rw [forgeBundles, haddr]
      rw [hrec]
    · simp [hmap]

theorem fanOut_all_parsed (ro : Nat → Except RelayErr String) :
    ∀ (l : List (BuilderConfig × (String × List String))) (i : Nat),
      (∀ p ∈ l, (parseAddress p.1.payment_address).isSome = true) →
      ∃ subs acts,
        fanOut ro l i = Sum.inl (subs, acts) ∧
        subs.map (fun s => s.builder) = l.map (fun p => p.2.1) ∧
        ∀ j, (hj : j < subs.length) → (subs.get ⟨j, hj⟩).outcome = ro (i + j) := by
  intro l
  induction l with
  | nil =>
    intro i _
    exact ⟨[], [], rfl, rfl, fun j hj => absurd hj (by simp)⟩
  | cons p rest ih =>
    obtain ⟨b, nm, txs⟩ := p
    intro i h
    have hp : (parseAddress b.payment_address).isSome = true :=
      h (b, (nm, txs)) (List.mem_cons_self _ rest)
    obtain ⟨addr, haddr⟩ := Option.isSome_iff_exists.mp hp
    obtain ⟨subs, acts, hrec, hmap, hout⟩ :=
      ih (i + 1) (fun x hx => h x (List.mem_cons_of_mem _ hx))
    refine ⟨{ builder := nm, outcome := ro i } :: subs,
      Action.dispatch nm :: acts, ?_, ?_, ?_⟩
    · rw [fanOut, haddr]
      rw [hrec]
    · simp [hmap]
    · intro j hj
      cases j with
      | zero => simp
      | succ m =>
        have hm : m < subs.length := by
          simpa using hj
        rw [List.get_cons_succ]
        rw [hout m hm]
        congr 1
        omega

/-! ## Claims -/

/-- **C1.** The claim says `calculate_payment` under `Flat` returns a pre-cap
amount equal to the params' `k2`.  The code returns the hard-coded constant
`200000000000000` wei: at the parameters of the crate's own unit test
(`k2 = 100000000000000`, generous cap) the result is `200000000000000`,
not `k2` — the code contradicts its doc comment (`payment = k2`) and its
test's assertion. -/
theorem C1_flat_returns_constant_not_k2 :
    calculate_flat c1Params = some 200000000000000 ∧
    c1Params.k2 = 100000000000000 ∧
    (calculate_payment c1Params).map (fun r => r.amount_wei) =
      some 200000000000000 ∧
    (calculate_payment c1Params).map (fun r => r.amount_wei) ≠
      some c1Params.k2 := by
  refine ⟨rfl, rfl, ?_, ?_⟩ <;> decide

/-- **C2 (counterexample).** With an operator configuration whose formula is
`Gas`, the params the handler hands to the calculator carry formula `Flat`
(the literal at `handlers.rs` line 107), and the computed amount is the flat
amount, not the gas-based one. -/
theorem C2_counterexample_formula_hardcoded :
    c2GasConfig.formula = PaymentFormula.Gas ∧
    (paymentParamsOf c2GasConfig 42000 20000000000).formula = PaymentFormula.Flat ∧
    (calculate_payment (paymentParamsOf c2GasConfig 42000 20000000000)).map
        (fun r => r.amount_wei) ≠
      (calculate_payment
        { paymentParamsOf c2GasConfig 42000 20000000000 with
            formula := c2GasConfig.formula }).map (fun r => r.amount_wei) := by
  refine ⟨rfl, rfl, ?_⟩
  decide

/-- **C2 (amended).** The handler invokes the calculator with `k1`, `k2` and
`max_amount` from the operator configuration snapshot, gas and base fee from
the chain reads and `tip = 0`, but the formula is always `Flat`, regardless of
the configured formula. -/
theorem C2_handler_params_from_config (pc : PaymentConfig) (g b : Nat) :
    (paymentParamsOf pc g b).formula = PaymentFormula.Flat ∧
    (paymentParamsOf pc g b).k1Scaled = pc.k1Scaled ∧
    (paymentParamsOf pc g b).k2 = pc.k2 ∧
    (paymentParamsOf pc g b).max_amount = pc.max_amount_wei ∧
    (paymentParamsOf pc g b).gas_used = g ∧
    (paymentParamsOf pc g b).base_fee_per_gas = b ∧
    (paymentParamsOf pc g b).max_priority_fee_per_gas = 0 :=
  ⟨rfl, rfl, rfl, paymentParamsOf_max_amount pc g b, rfl, rfl, rfl⟩

/-- **C3.** The claim says bytes reach a relay only after the policy gate
admitted the amount and the daily counter was incremented, exactly once per
request.  In the code the handler never consults `PaymentPolicyEnforcer` and
never updates any daily-spending record: on a fully admitted two-relay
request the trace contains both dispatches and no policy check and no commit
at all. -/
theorem C3_dispatch_without_policy_commit :
    (submit_bundle happyEnv happyReq).2 =
      [Action.forge "bA" 200000000000000, Action.forge "bB" 200000000000000,
       Action.dispatch "bA", Action.dispatch "bB"] ∧
    (∀ amt : Nat,
      Action.commitDailySpending amt ∉ (submit_bundle happyEnv happyReq).2 ∧
      Action.policyCheck amt ∉ (submit_bundle happyEnv happyReq).2) := by
  have htr : (submit_bundle happyEnv happyReq).2 =
      [Action.forge "bA" 200000000000000, Action.forge "bB" 200000000000000,
       Action.dispatch "bA", Action.dispatch "bB"] := by decide
  refine ⟨htr, fun amt => ?_⟩
  rw [htr]
  simp

/-- **C4.** Cap application in `calculate_payment`: when the formula result
exceeds `max_amount` the returned `amount_wei` is `max_amount` with
`was_capped = true`, otherwise the formula result with `was_capped = false`;
the result is monotone in `max_amount` (other params fixed), and
`amount_wei < max_amount` forces `was_capped = false`. -/
theorem C4_cap_application_and_monotonicity (p : PaymentParams) (a : Nat)
    (h : formulaAmount p = some a) :
    (∃ r, calculate_payment p = some r ∧
      (p.max_amount < a → r.amount_wei = p.max_amount ∧ r.was_capped = true) ∧
      (a ≤ p.max_amount → r.amount_wei = a ∧ r.was_capped = false) ∧
      (r.amount_wei < p.max_amount → r.was_capped = false)) ∧
    (∀ m₁ m₂ r₁ r₂, m₁ ≤ m₂ →
      calculate_payment { p with max_amount := m₁ } = some r₁ →
      calculate_payment { p with max_amount := m₂ } = some r₂ →
      r₁.amount_wei ≤ r₂.amount_wei) := by
  constructor
  · refine ⟨_, calculate_payment_spec p a h, ?_, ?_, ?_⟩
    · intro hlt
      simp [if_pos hlt, hlt]
    · intro hle
      have : ¬ p.max_amount < a := by omega
      simp [if_neg this, this]
    · intro hlt
      by_contra hcap
      simp only [Bool.not_eq_false, decide_eq_true_eq] at hcap
      rw [if_pos hcap] at hlt
      dsimp only at hlt
      omega
  · intro m₁ m₂ r₁ r₂ hm h₁ h₂
    have e₁ : formulaAmount { p with max_amount := m₁ } = some a := by
      rw [formulaAmount_max_irrel]; exact h
    have e₂ : formulaAmount { p with max_amount := m₂ } = some a := by
      rw [formulaAmount_max_irrel]; exact h
    rw [calculate_payment_spec _ a e₁] at h₁
    rw [calculate_payment_spec _ a e₂] at h₂
    injection h₁ with h₁
    injection h₂ with h₂
    subst h₁
    subst h₂
    dsimp only
    split <;> split <;> omega

/-- **C4 (witness).** The cap-engagement scenario S5-style figures: formula
result `200000000000000`, `max_amount = 1000`. -/
theorem C4_witness :
    formulaAmount { c1Params with max_amount := 1000 } = some 200000000000000 ∧
    (∃ r, calculate_payment { c1Params with max_amount := 1000 } = some r ∧
      r.amount_wei = 1000 ∧ r.was_capped = true) := by
  have h : formulaAmount { c1Params with max_amount := 1000 } =
      some 200000000000000 := by decide
  refine ⟨h, ?_⟩
  obtain ⟨⟨r, hr, hcap, _, _⟩, _⟩ :=
    C4_cap_application_and_monotonicity { c1Params with max_amount := 1000 }
      200000000000000 h
  exact ⟨r, hr, (hcap (by decide)).1, (hcap (by decide)).2⟩

/-- **C5.** The claim says the hash the forger computes equals `keccak256` of
the EIP-2718 type-prefixed encoding it returns.  The forger hashes
`alloy::rlp::encode(&tx)` — the bare RLP list of the nine unsigned fields —
while it returns `0x02 || rlp(fields ++ signature)`: the hashed byte string is
not the returned byte string for any signature (their first bytes already
differ: an RLP list header versus the `0x02` type byte), so the computed hash
is keccak of the wrong preimage. -/
theorem C5_hash_preimage_is_not_returned_encoding :
    (∀ sig : Signature, forgeHashInputBytes c5Tx ≠ forgeEncoded2718Bytes c5Tx sig) ∧
    (forgeHashInputBytes c5Tx).headI = 0xea ∧
    (forgeEncoded2718Bytes c5Tx c5Sig).headI = 0x02 := by
  refine ⟨?_, by decide, rfl⟩
  intro sig h
  have h234 : (forgeHashInputBytes c5Tx).headI = 0xea := by decide
  rw [h] at h234
  have h2 : (forgeEncoded2718Bytes c5Tx sig).headI = 0x02 := rfl
  rw [h2] at h234
  exact absurd h234 (by decide)

/-- **C6.** The claim says the `blockNumber` key is omitted when no
`target_block` is supplied.  `RelayBundleParams.block_number` is a mandatory
`String` field without `skip_serializing_if`, and `RelayBundleRequest::new`
always fills it: every serialized params object carries exactly the keys
`txs` and `blockNumber` (the hex rendering itself is the claimed
`"0x" ++ lower_case_hex`). -/
theorem C6_blockNumber_always_present (id n : Nat) (txs : List String) :
    (RelayBundleRequest.new id txs n).params.headI.block_number =
      "0x" ++ toHexLower n ∧
    (serializeRelayBundleParams ((RelayBundleRequest.new id txs n).params.headI)).map
      Prod.fst = ["txs", "blockNumber"] :=
  ⟨rfl, rfl⟩

/-- **C7 (counterexample).** A 2xx body that is a JSON object with an `error`
object carrying `code` and `message` but no `jsonrpc`/`id` envelope fields
fails the strict schema, falls to loose parsing, and is returned as
`InvalidResponse` — not `BundleRejected` as the claim states. -/
theorem C7_counterexample_bare_error_body :
    parse_bundle_submit_response "relayX" c7BareErrorBody =
      Except.error (RelayErr.InvalidResponse "relayX"
        "unexpected response (code -32000): nope") ∧
    ∀ reason, parse_bundle_submit_response "relayX" c7BareErrorBody ≠
      Except.error (RelayErr.BundleRejected "relayX" reason) := by
  have h1 : parse_bundle_submit_response "relayX" c7BareErrorBody =
      Except.error (RelayErr.InvalidResponse "relayX"
        "unexpected response (code -32000): nope") := by decide
  refine ⟨h1, fun reason h => ?_⟩
  rw [h1] at h
  simp at h

/-- **C7 (amended).** A 2xx JSON-object body whose `error` object carries
`code` and `message` is mapped to `BundleRejected{relay, reason = message}`
when the body also carries the `jsonrpc`/`id` envelope fields (the strict
schema); without the envelope fields the loose fallback yields
`InvalidResponse` embedding the code and message instead. -/
theorem C7_envelope_error_maps_to_bundle_rejected
    (relay ver msg : String) (idn code : Int)
    (hid : 0 ≤ idn ∧ idn < 2 ^ 64)
    (hcode : -(2 ^ 31) ≤ code ∧ code < 2 ^ 31) :
    parse_bundle_submit_response relay
      (Json.obj [("jsonrpc", Json.str ver), ("id", Json.num idn),
                 ("error", Json.obj [("code", Json.num code),
                                     ("message", Json.str msg)])]) =
      Except.error (RelayErr.BundleRejected relay msg) := by
  have e64 : ((2 : Int) ^ 64 = 18446744073709551616) := by norm_num
  have e63 : ((2 : Int) ^ 63 = 9223372036854775808) := by norm_num
  have e31 : ((2 : Int) ^ 31 = 2147483648) := by norm_num
  rw [e64] at hid
  rw [e31] at hcode
  have hc63 : -9223372036854775808 ≤ code ∧ code < 9223372036854775808 := by omega
  have hc31 : -2147483648 ≤ code ∧ code < 2147483648 := by omega
  have hi64 : 0 ≤ idn ∧ idn < 18446744073709551616 := hid
  unfold parse_bundle_submit_response parseRelayBundleResponse parseRelayErrorBody
  simp [Json.get, Json.asStr, Json.asU64, Json.asI64, List.find?, hi64, hc63, hc31]

/-- **C7 (amended) witness.** -/
theorem C7_envelope_error_witness :
    parse_bundle_submit_response "r"
      (Json.obj [("jsonrpc", Json.str "2.0"), ("id", Json.num 1),
                 ("error", Json.obj [("code", Json.num (-32000)),
                                     ("message", Json.str "m")])]) =
      Except.error (RelayErr.BundleRejected "r" "m") :=
  C7_envelope_error_maps_to_bundle_rejected "r" "2.0" "m" 1 (-32000)
    (by norm_num) (by norm_num)

/-- **C10.** `toggle_killswitch` treats a missing `activate` key, or an
`activate` value that is not a boolean, as `activate = true`; only an explicit
`"activate": false` deactivates. -/
theorem C10_killswitch_activate_default :
    (∀ j : Json,
      (j.get "activate" = none ∨ ∀ b : Bool, j.get "activate" ≠ some (Json.bool b)) →
      toggle_killswitch j = true) ∧
    (∀ j : Json, j.get "activate" = some (Json.bool false) →
      toggle_killswitch j = false) := by
  constructor
  · intro j h
    unfold toggle_killswitch
    rcases h with h | h
    · rw [h]; rfl
    · cases hj : j.get "activate" with
      | none => rfl
      | some v =>
        cases v with
        | bool b => exact absurd hj (h b)
        | null => rfl
        | num _ => rfl
        | str _ => rfl
        | arr _ => rfl
        | obj _ => rfl
  · intro j h
    unfold toggle_killswitch
    rw [h]
    rfl

/-- **C10 witness.** Missing key, non-boolean value, explicit `false`. -/
theorem C10_killswitch_witness :
    toggle_killswitch (Json.obj []) = true ∧
    toggle_killswitch (Json.obj [("activate", Json.str "yes")]) = true ∧
    toggle_killswitch (Json.obj [("activate", Json.bool false)]) = false := by
  refine ⟨?_, ?_, ?_⟩
  · exact C10_killswitch_activate_default.1 (Json.obj []) (Or.inl rfl)
  · refine C10_killswitch_activate_default.1 _ (Or.inr fun b h => ?_)
    rw [show (Json.obj [("activate", Json.str "yes")]).get "activate" =
      some (Json.str "yes") from rfl] at h
    exact Json.noConfusion (Option.some.inj h)
  · exact C10_killswitch_activate_default.2 _ rfl

/-- **C8.** The balance gate: when the signer's balance is strictly below
`21000 × max_fee_per_gas + payment_amount` the handler replies with the
insufficient-balance rejection — HTTP 400, body carrying exactly `balanceWei`
and `requiredWei` — and the trace is empty (nothing forged, nothing
dispatched); when the balance covers the sum the handler proceeds past the
check. -/
theorem C8_balance_gate (env : HandlerEnv) (req : BundleRequestIn)
    (k : String) (sa : Nat) (bf? : Option Nat) (n bal : Nat)
    (hk : env.killswitch = false)
    (hne : (env.config.builders.filter (fun b => b.enabled)).isEmpty = false)
    (hkey : env.signerKey = some k)
    (hurl : env.rpcUrlValid = true)
    (hlb : env.latestBlock = Except.ok (some bf?))
    (haddr : env.signerAddr = some sa)
    (hnonce : env.nonce = Except.ok n)
    (hbal : env.balance = Except.ok bal) :
    (bal < 21000 * handlerMaxFee (handlerBaseFee bf?) +
        paymentAmountOf env.config.payment (handlerEstimatedGas env.gasEstimate)
          (handlerBaseFee bf?) →
      submit_bundle env req =
        (HandlerReply.errInsufficientBalance bal
          (21000 * handlerMaxFee (handlerBaseFee bf?) +
            paymentAmountOf env.config.payment (handlerEstimatedGas env.gasEstimate)
              (handlerBaseFee bf?)), []) ∧
      (submit_bundle env req).1.statusCode = 400) ∧
    (21000 * handlerMaxFee (handlerBaseFee bf?) +
        paymentAmountOf env.config.payment (handlerEstimatedGas env.gasEstimate)
          (handlerBaseFee bf?) ≤ bal →
      (submit_bundle env req).1.isInsufficientBalance = false) := by
  rw [submit_bundle_past_prelude env req k sa bf? n bal hk hne hkey hurl hlb
    haddr hnonce hbal]
  constructor
  · intro h
    rw [if_pos h]
    exact ⟨rfl, rfl⟩
  · intro h
    rw [if_neg (not_lt.mpr h)]
    rcases hfb : forgeBundles req.tx1
        (paymentAmountOf env.config.payment (handlerEstimatedGas env.gasEstimate)
          (handlerBaseFee bf?))
        (env.config.chain_id.getD 1) (if n < 2 ^ 64 then n else 0)
        (handlerMaxFee (handlerBaseFee bf?)) env.sig
        (env.config.builders.filter (fun b => b.enabled)) 0 with
      ⟨bundles, forgeActs⟩ | ⟨nm, acts⟩
    · rcases ffo : fanOut env.relayOutcome
          ((env.config.builders.filter (fun b => b.enabled)).zip bundles) 0 with
        ⟨subs, dispatchActs⟩ | ⟨nm, acts⟩
      · simp [hfb, ffo, HandlerReply.isInsufficientBalance]
      · simp [hfb, ffo, HandlerReply.isInsufficientBalance]
    · simp [hfb, HandlerReply.isInsufficientBalance]

/-- **C8 witness.** With a 100-wei signer balance the handler rejects with
the exact balance and requirement figures and an empty trace. -/
theorem C8_balance_gate_witness :
    submit_bundle c8Env happyReq =
      (HandlerReply.errInsufficientBalance 100
        (21000 * handlerMaxFee (handlerBaseFee (some 20000000000)) +
          paymentAmountOf c8Env.config.payment (handlerEstimatedGas c8Env.gasEstimate)
            (handlerBaseFee (some 20000000000))), []) :=
  ((C8_balance_gate c8Env happyReq
      "4c0883a69102937d6231471b5dbb6204fe5129617082792ae468d01a3f362318"
      1 (some 20000000000) 7 100 rfl rfl rfl rfl rfl rfl rfl rfl).1 (by decide)).1

/-- **C9.** Every request that reaches the relay fan-out (prelude passed,
balance sufficient, every enabled builder's payment address well-formed)
yields HTTP 200 with a submissions array listing exactly the enabled relays in
configuration order, each entry's outcome being that relay's own result —
`"submitted"` or `"failed"` — so per-relay failures never fail the request. -/
theorem C9_fanout_completeness (env : HandlerEnv) (req : BundleRequestIn)
    (k : String) (sa : Nat) (bf? : Option Nat) (n bal : Nat)
    (hk : env.killswitch = false)
    (hne : (env.config.builders.filter (fun b => b.enabled)).isEmpty = false)
    (hkey : env.signerKey = some k)
    (hurl : env.rpcUrlValid = true)
    (hlb : env.latestBlock = Except.ok (some bf?))
    (haddr : env.signerAddr = some sa)
    (hnonce : env.nonce = Except.ok n)
    (hbal : env.balance = Except.ok bal)
    (hsb : 21000 * handlerMaxFee (handlerBaseFee bf?) +
      paymentAmountOf env.config.payment (handlerEstimatedGas env.gasEstimate)
        (handlerBaseFee bf?) ≤ bal)
    (hpa : ∀ b ∈ env.config.builders.filter (fun b => b.enabled),
      (parseAddress b.payment_address).isSome = true) :
    ∃ subs acts,
      submit_bundle env req = (HandlerReply.ok env.bundleId subs, acts) ∧
      (HandlerReply.ok env.bundleId subs).statusCode = 200 ∧
      subs.map (fun s => s.builder) =
        (env.config.builders.filter (fun b => b.enabled)).map (fun b => b.name) ∧
      (∀ i, (hi : i < subs.length) →
        (subs.get ⟨i, hi⟩).outcome = env.relayOutcome i) ∧
      (∀ i, (hi : i < subs.length) →
        (subs.get ⟨i, hi⟩).status = "submitted" ∨
        (subs.get ⟨i, hi⟩).status = "failed") := by
  obtain ⟨bundles, forgeActs, hfb, hnames⟩ :=
    forgeBundles_all_parsed req.tx1
      (paymentAmountOf env.config.payment (handlerEstimatedGas env.gasEstimate)
        (handlerBaseFee bf?))
      (env.config.chain_id.getD 1) (if n < 2 ^ 64 then n else 0)
      (handlerMaxFee (handlerBaseFee bf?)) env.sig
      (env.config.builders.filter (fun b => b.enabled)) 0 hpa
  have hlen : bundles.length =
      (env.config.builders.filter (fun b => b.enabled)).length := by
    have := congrArg List.length hnames
    simpa using this
  obtain ⟨subs, dispatchActs, ffo, hmap, hout⟩ :=
    fanOut_all_parsed env.relayOutcome
      ((env.config.builders.filter (fun b => b.enabled)).zip bundles) 0
      (fun p hp => hpa p.1 (List.of_mem_zip hp).1)
  refine ⟨subs, forgeActs ++ dispatchActs, ?_, rfl, ?_, ?_, ?_⟩
  · rw [submit_bundle_past_prelude env req k sa bf? n bal hk hne hkey hurl hlb
      haddr hnonce hbal]
    rw [if_neg (not_lt.mpr hsb)]
    simp only [hfb, ffo]
  · rw [hmap]
    have hz : ((env.config.builders.filter (fun b => b.enabled)).zip bundles).map
        Prod.snd = bundles := List.map_snd_zip _ _ (le_of_eq hlen)
    calc ((env.config.builders.filter (fun b => b.enabled)).zip bundles).map
          (fun p => p.2.1)
        = (((env.config.builders.filter (fun b => b.enabled)).zip bundles).map
            Prod.snd).map Prod.fst := by rw [List.map_map]; rfl
      _ = bundles.map Prod.fst := by rw [hz]
      _ = (env.config.builders.filter (fun b => b.enabled)).map
            (fun b => b.name) := hnames
  · intro i hi
    have := hout i hi
    rwa [Nat.zero_add] at this
  · intro i hi
    cases hoc : (subs.get ⟨i, hi⟩).outcome with
    | ok v => left; unfold Submission.status; rw [hoc]
    | error e => right; unfold Submission.status; rw [hoc]

/-- **C9 witness.** The two-relay happy path: both relays are listed, in
configuration order, and the reply is the 200 envelope. -/
theorem C9_fanout_witness :
    ∃ subs acts,
      submit_bundle happyEnv happyReq = (HandlerReply.ok "bundle-1" subs, acts) ∧
      subs.map (fun s => s.builder) = ["bA", "bB"] := by
  obtain ⟨subs, acts, heq, _, hnames, _, _⟩ :=
    C9_fanout_completeness happyEnv happyReq
      "4c0883a69102937d6231471b5dbb6204fe5129617082792ae468d01a3f362318"
      1 (some 20000000000) 7 1000000000000000000
      rfl rfl rfl rfl rfl rfl rfl rfl (by decide) (by decide)
  exact ⟨subs, acts, heq, by rw [hnames]; rfl⟩

end AtomicBundler
